import Mathlib

/-!
Shallow embedding of the BuyBacking order-lifecycle backend
(`src/functions/index.js`, `src/swiftbuyback-backend/index.js`, and the
unnamed revisions), together with theorems checking the natural-language
specification's claims against the code.

Conventions of the embedding:
* Firestore documents are modelled as Lean structures (`Order`) or, where a
  claim is about raw field overriding, as association lists of `JVal`.
* Timestamps are `Nat` milliseconds; `admin.firestore.FieldValue.serverTimestamp()`
  becomes an explicit `now : Nat` parameter resolved at write time.
* JS numbers are `Int` where only truthiness and comparison matter.
* A handler returning an HTTP error without updating the store is an
  `Except HttpErr _` value whose `.error` case carries the HTTP class;
  the `.ok` case carries the order as written to the store.
-/

/-- HTTP error classes used by the handlers (400/404/409/500/502). -/
inductive HttpErr where
  | badRequest (msg : String)
  | notFound (msg : String)
  | conflict (msg : String)
  | serverError (msg : String)
  | badGateway (msg : String)
deriving Repr, DecidableEq

/-- `order.shippingInfo` as the handlers read it.  The revisions disagree on
the postal-code field name (`zipCode` in `src/functions/index.js`,
`postalCode` in `src/unnamed/part_004`); a Firestore document can carry both,
so both are fields here.  An absent/empty JS field is the empty string. -/
structure ShippingInfo where
  fullName : String
  streetAddress : String
  city : String
  state : String
  zipCode : String
  postalCode : String
  email : String
deriving Repr, DecidableEq

/-- The `reOffer` sub-record written by `POST /orders/:id/re-offer`
(`src/functions/index.js` lines 317-327). -/
structure ReOffer where
  newPrice : Int
  reasons : List String
  comments : String
  createdAt : Nat
  autoAcceptDate : Nat
deriving Repr, DecidableEq

/-- An order document with the fields the verified handlers read or write.
`status` is a raw string, exactly as stored in Firestore. -/
structure Order where
  status : String
  shippingInfo : ShippingInfo
  estimatedQuote : Int
  customOrderId : String
  reOffer : Option ReOffer
  zendeskTicketId : Option Nat
  uspsLabelUrl : Option String
  trackingNumber : Option String
  returnLabelUrl : Option String
  returnTrackingNumber : Option String
  acceptedAt : Option Nat
  declinedAt : Option Nat
  returnRequestedAt : Option Nat
  labelGeneratedAt : Option Nat
deriving Repr, DecidableEq

/-- A fixed sample shipping record used for concrete witnesses. -/
def si0 : ShippingInfo :=
  { fullName := "John Doe", streetAddress := "123 Main St", city := "Brooklyn"
  , state := "NY", zipCode := "11201", postalCode := "11201"
  , email := "john@example.com" }

/-- A fixed sample order used for concrete witnesses and counterexamples. -/
def o0 : Order :=
  { status := "pending_shipment", shippingInfo := si0, estimatedQuote := 420
  , customOrderId := "12-345", reOffer := none, zendeskTicketId := none
  , uspsLabelUrl := none, trackingNumber := none, returnLabelUrl := none
  , returnTrackingNumber := none, acceptedAt := none, declinedAt := none
  , returnRequestedAt := none, labelGeneratedAt := none }

/-!  ## C1 — status-update endpoint (`PUT /orders/:id/status`)

Both revisions (`src/functions/index.js` lines 289-299 and 1067-1085) read
`status` from the request body, return 400 when it is falsy, and otherwise
write it to the document verbatim: `update({ status })`.  There is no
validation against a lifecycle set and no check of the current status.  -/

/-- `PUT /orders/:id/status` (second revision, `src/functions/index.js`
lines 1067-1085).  `body` is the `status` field of the request body
(`none` = absent; the empty string is also falsy in JS).  The first revision
differs only in omitting the 404 existence check, which the `Order` argument
already assumes. -/
def updateStatus (o : Order) (body : Option String) : Except HttpErr Order :=
  match body with
  | none => .error (.badRequest "Status is required.")
  | some s =>
    if s = "" then .error (.badRequest "Status is required.")
    else .ok { o with status := s }

/-- The closed set of lifecycle states named by spec section 4.1 (transcribed
from the spec's words, for comparison against what the code writes). -/
def specLifecycleStates : List String :=
  [ "pending_shipment", "label_generated", "re-offer_pending"
  , "offer_accepted", "return_requested", "auto_accepted"
  , "return_label_generated" ]

/-- Claim C1 (counterexample): the status-update endpoint writes the status
value `"received"` — a value outside spec section 4.1's lifecycle set (it is
the value the repository's own `create_orders.sh` script submits) — so the
claim that no operation writes a status outside the table is false. -/
theorem updateStatus_accepts_nonlifecycle_status :
    updateStatus o0 (some "received") = .ok { o0 with status := "received" }
    ∧ "received" ∉ specLifecycleStates := by
  constructor
  · rfl
  · decide

/-- Claim C1 (amended): the status-update endpoint validates only that a
status value is present (non-falsy); any supplied value is written to the
order verbatim, with no check against the lifecycle set and no check of the
current status, so arbitrary status values and transitions are reachable. -/
theorem updateStatus_writes_verbatim (o : Order) (s : String) (h : s ≠ "") :
    updateStatus o (some s) = .ok { o with status := s }
    ∧ updateStatus o none = .error (.badRequest "Status is required.")
    ∧ updateStatus o (some "") = .error (.badRequest "Status is required.") := by
  refine ⟨?_, rfl, rfl⟩
  simp [updateStatus, h]

/-- Witness for `updateStatus_writes_verbatim` at a concrete order and
status value. -/
theorem updateStatus_writes_verbatim_witness :
    updateStatus o0 (some "received") = .ok { o0 with status := "received" }
    ∧ updateStatus o0 none = .error (.badRequest "Status is required.")
    ∧ updateStatus o0 (some "") = .error (.badRequest "Status is required.") :=
  updateStatus_writes_verbatim o0 "received" (by decide)

/-!  ## C3 — human order-number generator

`generateUniqueFiveDigitOrderNumber` (`src/functions/index.js` lines 46-64)
is a `while (!unique)` loop: draw a random five-digit number, format it as
`XX-XXX`, query the store, and exit only when the store reports the number
free.  The source has no retry bound and no exhaustion error: its only exit
is success.  The embedding makes the random draws an explicit list and the
store query an oracle `taken`; returning `none` means the given draws are
exhausted with the loop still running (the source would keep drawing). -/

/-- Formatting of a five-digit draw as `XX-XXX`
(`String(num).substring(0,2)` and `substring(2,5)`). -/
def formatOrderNumber (num : Nat) : String :=
  let s := toString num
  s.take 2 ++ "-" ++ (s.drop 2).take 3

/-- The retry loop of `generateUniqueFiveDigitOrderNumber`, with the random
draws made explicit.  `taken s = true` models a non-empty store query for
`customOrderId == s`.  `none` means every supplied draw collided and the
source loop is still running — the source has no failure exit at all. -/
def genOrderNumberLoop (taken : String → Bool) : List Nat → Option String
  | [] => none
  | d :: ds =>
    let s := formatOrderNumber d
    if taken s then genOrderNumberLoop taken ds else some s

/-- Claim C3 (code bug): after 25 consecutive collisions — more than the
claimed retry bound of 20 — the generator has neither succeeded nor produced
an exhaustion error (first conjunct: the loop is simply still running), and
a free number on the 26th draw is accepted as if nothing happened (second
conjunct), so there is no bound and no explicit exhaustion failure. -/
theorem genOrderNumber_no_exhaustion_bound :
    genOrderNumberLoop (fun _ => true) (List.replicate 25 12345) = none
    ∧ genOrderNumberLoop (fun s => s != "10-000")
        (List.replicate 25 12345 ++ [10000]) = some "10-000" := by
  constructor <;> decide

/-!  ## C2 — buyer accept / decline resolution guard

First revision (`src/functions/index.js`): `POST /accept-offer-action`
(lines 471-530) and `POST /return-phone-action` (lines 534-594) reject with
HTTP 409 unless `status === "re-offered-pending"`, then write the resolved
status and timestamp.  Second revision: `GET /accept-offer`
(lines 1093-1150) and `GET /return-phone` (lines 1153-1201) perform no
status check at all — after the existence check they update the document
unconditionally.  -/

/-- `POST /accept-offer-action` (first revision).  409 unless the status is
exactly `re-offered-pending`; on success write `re-offered-accepted` and
`acceptedAt`.  An `.error` result means the handler returned before the
store update, leaving the order unchanged. -/
def acceptOfferAction (o : Order) (now : Nat) : Except HttpErr Order :=
  if o.status ≠ "re-offered-pending" then
    .error (.conflict "This offer has already been accepted or declined.")
  else
    .ok { o with status := "re-offered-accepted", acceptedAt := some now }

/-- `POST /return-phone-action` (first revision).  409 unless the status is
exactly `re-offered-pending`; on success write `re-offered-declined` and
`declinedAt`. -/
def returnPhoneAction (o : Order) (now : Nat) : Except HttpErr Order :=
  if o.status ≠ "re-offered-pending" then
    .error (.conflict "This offer has already been accepted or declined.")
  else
    .ok { o with status := "re-offered-declined", declinedAt := some now }

/-- `GET /accept-offer` (second revision, lines 1093-1150): after the
existence check the handler updates the order unconditionally — there is no
status precondition. -/
def acceptOfferGet (o : Order) (now : Nat) : Except HttpErr Order :=
  .ok { o with status := "offer_accepted", acceptedAt := some now }

/-- `GET /return-phone` (second revision, lines 1153-1201): updates the
order unconditionally — no status precondition. -/
def returnPhoneGet (o : Order) (now : Nat) : Except HttpErr Order :=
  .ok { o with status := "return_requested", returnRequestedAt := some now }

/-- An already-resolved order (re-offer previously accepted), used to show
a second resolution attempt is not rejected by the GET endpoints. -/
def oResolved : Order := { o0 with status := "offer_accepted", acceptedAt := some 5 }

/-- Claim C2 (counterexample): on an order whose re-offer is already
resolved (`status = "offer_accepted"`), the second-revision buyer-accept
endpoint does not return a 409 conflict and does not leave the order
unchanged — it succeeds and overwrites `acceptedAt`; likewise the decline
endpoint moves the already-accepted order to `return_requested`.  So two
racing resolution attempts can both win, contradicting the claim. -/
theorem acceptOfferGet_ignores_resolution_guard :
    acceptOfferGet oResolved 99
      = .ok { oResolved with status := "offer_accepted", acceptedAt := some 99 }
    ∧ returnPhoneGet oResolved 99
      = .ok { oResolved with status := "return_requested", returnRequestedAt := some 99 } :=
  ⟨rfl, rfl⟩

/-- Claim C2 (amended): the first-revision POST endpoints
(`/accept-offer-action`, `/return-phone-action`) implement the claimed
guard — they succeed exactly when the status is `re-offered-pending`,
setting `acceptedAt` / `declinedAt`, and from any other status they return
409 without a write; but the second-revision GET endpoints
(`/accept-offer`, `/return-phone`) perform no status check and resolve the
order unconditionally from any status. -/
theorem acceptDecline_guard_spec (o : Order) (now : Nat) :
    (o.status = "re-offered-pending" →
      acceptOfferAction o now
        = .ok { o with status := "re-offered-accepted", acceptedAt := some now }
      ∧ returnPhoneAction o now
        = .ok { o with status := "re-offered-declined", declinedAt := some now })
    ∧ (o.status ≠ "re-offered-pending" →
      acceptOfferAction o now
        = .error (.conflict "This offer has already been accepted or declined.")
      ∧ returnPhoneAction o now
        = .error (.conflict "This offer has already been accepted or declined."))
    ∧ acceptOfferGet o now
        = .ok { o with status := "offer_accepted", acceptedAt := some now }
    ∧ returnPhoneGet o now
        = .ok { o with status := "return_requested", returnRequestedAt := some now } := by
  refine ⟨fun h => ?_, fun h => ?_, rfl, rfl⟩
  · constructor <;> simp [acceptOfferAction, returnPhoneAction, h]
  · constructor <;> simp [acceptOfferAction, returnPhoneAction, h]

/-- Witness for `acceptDecline_guard_spec`: a pending order at a concrete
time, discharging the guard hypothesis in the first conjunct. -/
theorem acceptDecline_guard_spec_witness :
    acceptOfferAction { o0 with status := "re-offered-pending" } 7
      = .ok { o0 with status := "re-offered-accepted", acceptedAt := some 7 }
    ∧ returnPhoneAction { o0 with status := "re-offered-pending" } 7
      = .ok { o0 with status := "re-offered-declined", declinedAt := some 7 } :=
  (acceptDecline_guard_spec { o0 with status := "re-offered-pending" } 7).1 rfl

/-!  ## C5 — label direction resolver

`createShipStationLabel(order, isReturnLabel)` (`src/functions/index.js`
lines 155-232) builds one fixed business address and one buyer address from
`order.shippingInfo`, then assigns them to `ship_from` / `ship_to` by the
direction flag.  `src/unnamed/part_004` splits the same policy into
`createShipmentAndLabel` (outbound, lines 281-336) and `createReturnLabel`
(return, lines 342-397), each validating the customer shipping fields
first.  -/

/-- A ShipEngine address as the handlers build it.  `phone` and
`companyName` are absent (`none`) in the revisions that omit them. -/
structure Address where
  name : String
  companyName : Option String
  phone : Option String
  addressLine1 : String
  cityLocality : String
  stateProvince : String
  postalCode : String
  countryCode : String
deriving Repr, DecidableEq

/-- The `ship_from`/`ship_to` pair of a ShipEngine label request, plus the
human order reference attached in `label_messages.reference1`. -/
structure LabelRequest where
  shipFrom : Address
  shipTo : Address
  reference : String
deriving Repr, DecidableEq

/-- SwiftBuyBack's fixed address (`src/functions/index.js` lines 160-169). -/
def swiftBuyBackAddress : Address :=
  { name := "SwiftBuyBack Returns", companyName := some "SwiftBuyBack"
  , phone := some "555-555-5555", addressLine1 := "1795 West 3rd St"
  , cityLocality := "Brooklyn", stateProvince := "NY", postalCode := "11223"
  , countryCode := "US" }

/-- The buyer's address built from `order.shippingInfo`
(`src/functions/index.js` lines 172-180; note `zipCode`). -/
def buyerAddress (o : Order) : Address :=
  { name := o.shippingInfo.fullName, companyName := none
  , phone := some "555-555-5555", addressLine1 := o.shippingInfo.streetAddress
  , cityLocality := o.shippingInfo.city, stateProvince := o.shippingInfo.state
  , postalCode := o.shippingInfo.zipCode, countryCode := "US" }

/-- The label request built by `createShipStationLabel(order, isReturnLabel)`:
return labels ship business→buyer, initial labels ship buyer→business, and
the custom order id rides along as `reference1`. -/
def createShipStationLabelReq (o : Order) (isReturnLabel : Bool) : LabelRequest :=
  if isReturnLabel then
    { shipFrom := swiftBuyBackAddress, shipTo := buyerAddress o
    , reference := "OrderRef: " ++ o.customOrderId }
  else
    { shipFrom := buyerAddress o, shipTo := swiftBuyBackAddress
    , reference := "OrderRef: " ++ o.customOrderId }

/-- The shipping-completeness validation shared by `createShipmentAndLabel`
and `createReturnLabel` in `src/unnamed/part_004`: each of fullName,
streetAddress, city, state and postalCode must be present and not
whitespace-only. -/
def part4ShippingComplete (si : ShippingInfo) : Bool :=
  si.fullName.trim != "" && si.streetAddress.trim != "" && si.city.trim != ""
    && si.state.trim != "" && si.postalCode.trim != ""

/-- The business address used by `src/unnamed/part_004` (shipTo of the
outbound label, shipFrom of the return label). -/
def part4BusinessAddress : Address :=
  { name := "SwiftBuyBack", companyName := none, phone := none
  , addressLine1 := "1795 west 3rd st", cityLocality := "Anytown"
  , stateProvince := "CA", postalCode := "90210", countryCode := "US" }

/-- The customer address as `src/unnamed/part_004` builds it (note
`postalCode`, not `zipCode`). -/
def part4CustomerAddress (si : ShippingInfo) : Address :=
  { name := si.fullName, companyName := none, phone := none
  , addressLine1 := si.streetAddress, cityLocality := si.city
  , stateProvince := si.state, postalCode := si.postalCode
  , countryCode := "US" }

/-- The request built by `createShipmentAndLabel` (`src/unnamed/part_004`
lines 281-336): validate, then ship customer→business.  The thrown message
is the `Error` text of the source. -/
def createShipmentAndLabelReq (o : Order) : Except String LabelRequest :=
  if part4ShippingComplete o.shippingInfo then
    .ok { shipFrom := part4CustomerAddress o.shippingInfo
        , shipTo := part4BusinessAddress, reference := "" }
  else
    .error "Missing or incomplete customer shipping information for label generation."

/-- The request built by `createReturnLabel` (`src/unnamed/part_004`
lines 342-397): validate, then ship business→customer. -/
def createReturnLabelReq (o : Order) : Except String LabelRequest :=
  if part4ShippingComplete o.shippingInfo then
    .ok { shipFrom := part4BusinessAddress
        , shipTo := part4CustomerAddress o.shippingInfo, reference := "" }
  else
    .error "Missing or incomplete customer shipping information for return label generation."

/-- Claim C5 (confirmed): for every order, the outbound request ships
customer→business and the return request ships business→customer, and the
two address pairs are exact mirror images — in `createShipStationLabel`
(first four conjuncts) and likewise in `part_004`'s
`createShipmentAndLabel` / `createReturnLabel` pair (last two conjuncts,
stated through `Except.toOption` so that the validation branches agree). -/
theorem label_direction_mirror (o : Order) :
    (createShipStationLabelReq o false).shipFrom = buyerAddress o
    ∧ (createShipStationLabelReq o false).shipTo = swiftBuyBackAddress
    ∧ (createShipStationLabelReq o false).shipFrom = (createShipStationLabelReq o true).shipTo
    ∧ (createShipStationLabelReq o false).shipTo = (createShipStationLabelReq o true).shipFrom
    ∧ (createShipmentAndLabelReq o).toOption.map LabelRequest.shipFrom
        = (createReturnLabelReq o).toOption.map LabelRequest.shipTo
    ∧ (createShipmentAndLabelReq o).toOption.map LabelRequest.shipTo
        = (createReturnLabelReq o).toOption.map LabelRequest.shipFrom := by
  refine ⟨rfl, rfl, rfl, rfl, ?_, ?_⟩ <;>
    · unfold createShipmentAndLabelReq createReturnLabelReq
      by_cases h : part4ShippingComplete o.shippingInfo <;> simp [h, Except.toOption]

/-!  ## C4 — ordering of side effects around the status write

`POST /generate-label/:id` (`src/functions/index.js` lines 236-285; the
`src/unnamed/part_004` revision at lines 495-514 is the same shape minus the
email): read the order, call the label provider, write
`status = "label_generated"` plus the label fields, then send the buyer
email inside its own try/catch.  The run is modelled as the handler's result
together with the ordered log of external effects it performed. -/

/-- External effects performed by the generate-label handler, in the order
they are invoked. -/
inductive Eff where
  | labelProviderCall
  | storeStatusWrite
  | buyerEmail
deriving Repr, DecidableEq, BEq

/-- The label data returned by the provider on success. -/
structure LabelData where
  pdfUrl : String
  trackingNumber : String
deriving Repr, DecidableEq

/-- One run of `POST /generate-label/:id` (lines 236-285).  `label` is the
provider's response (`none` = the axios call threw, caught by the outer
handler as a 500 before any store write); `emailOk` is whether
`transporter.sendMail` succeeds — its failure is caught locally (lines
268-273) and does not undo the committed write.  The second component is
the ordered effect log of the run. -/
def generateLabelRun (o : Order) (label : Option LabelData) (emailOk : Bool) :
    Except HttpErr Order × List Eff :=
  match label with
  | none => (.error (.serverError "Failed to generate label"), [.labelProviderCall])
  | some ld =>
    let o' := { o with status := "label_generated",
                       uspsLabelUrl := some ld.pdfUrl,
                       trackingNumber := some ld.trackingNumber }
    let _ := emailOk
    (.ok o', [.labelProviderCall, .storeStatusWrite, .buyerEmail])

/-- A fixed provider response used in concrete statements. -/
def ld0 : LabelData := { pdfUrl := "https://example.com/label.pdf", trackingNumber := "9400" }

/-- Position of an effect in an effect log (first occurrence). -/
def effPos (log : List Eff) (e : Eff) : Nat := log.findIdx (fun x => x == e)

/-- Claim C4 (counterexample): in a successful run of generate-label the
label-provider call (index 0 of the effect log) is invoked strictly before
the status write (index 1) — the provider's response is an input of the
write — so the claim that every external side effect is invoked only after
the status write has succeeded is false for the label call. -/
theorem generateLabel_labelCall_precedes_write :
    effPos (generateLabelRun o0 (some ld0) true).2 Eff.labelProviderCall
      < effPos (generateLabelRun o0 (some ld0) true).2 Eff.storeStatusWrite := by
  decide

/-- Claim C4 (amended): in every run of generate-label the buyer
notification is invoked only after the status write (and an email failure
leaves the committed status in place), while the label-provider call always
precedes the status write; when the provider call fails, the handler stops
with a 500 and no status write at all occurs, so the committed status is
never inconsistent with a half-done transition. -/
theorem generateLabel_effect_order (o : Order) (label : Option LabelData) (emailOk : Bool) :
    (∀ ld, label = some ld →
      generateLabelRun o label emailOk
        = (.ok { o with status := "label_generated",
                        uspsLabelUrl := some ld.pdfUrl,
                        trackingNumber := some ld.trackingNumber },
           [.labelProviderCall, .storeStatusWrite, .buyerEmail]))
    ∧ (label = none →
      generateLabelRun o label emailOk
        = (.error (.serverError "Failed to generate label"), [.labelProviderCall])) := by
  constructor
  · rintro ld rfl; rfl
  · rintro rfl; rfl

/-- Witness for `generateLabel_effect_order` at a concrete order, provider
response and email outcome, discharging both hypotheses in turn. -/
theorem generateLabel_effect_order_witness :
    generateLabelRun o0 (some ld0) true
      = (.ok { o0 with status := "label_generated",
                        uspsLabelUrl := some ld0.pdfUrl,
                        trackingNumber := some ld0.trackingNumber },
         [.labelProviderCall, .storeStatusWrite, .buyerEmail])
    ∧ generateLabelRun o0 none true
      = (.error (.serverError "Failed to generate label"), [.labelProviderCall]) :=
  ⟨(generateLabel_effect_order o0 (some ld0) true).1 ld0 rfl,
   (generateLabel_effect_order o0 none true).2 rfl⟩

/-!  ## C6 — scheduler auto-accept sweep

`autoAcceptOffers` (`src/functions/index.js` lines 597-652) queries
`status == "re-offered-pending" AND reOffer.autoAcceptDate <= now` and
updates each matched document to `status = "re-offered-auto-accepted"` with
a fresh `acceptedAt`.  A Firestore inequality on `reOffer.autoAcceptDate`
matches only documents that have the field, so orders without a `reOffer`
sub-record are never selected.  -/

/-- The sweep's selection predicate: the Firestore query
`where status == "re-offered-pending"` and
`where reOffer.autoAcceptDate <= now`. -/
def dueForAutoAccept (now : Nat) (o : Order) : Bool :=
  o.status == "re-offered-pending"
    && (match o.reOffer with
        | some r => r.autoAcceptDate ≤ now
        | none => false)

/-- The per-order update the sweep applies to a matched document
(lines 643-646). -/
def autoAcceptUpdate (now : Nat) (o : Order) : Order :=
  { o with status := "re-offered-auto-accepted", acceptedAt := some now }

/-- One sweep of a single order: apply the update exactly when the query
matches, else leave the document untouched. -/
def sweepOrder (now : Nat) (o : Order) : Order :=
  if dueForAutoAccept now o then autoAcceptUpdate now o else o

/-- One run of the `autoAcceptOffers` scheduled function over the whole
collection. -/
def autoAcceptOffers (now : Nat) (orders : List Order) : List Order :=
  orders.map (sweepOrder now)

/-- A concrete order sitting in `re-offered-pending` whose auto-accept
deadline (90) has passed by time 100. -/
def oDue : Order :=
  { o0 with
      status := "re-offered-pending",
      reOffer := some { newPrice := 350, reasons := ["cracked screen"],
                        comments := "", createdAt := 10, autoAcceptDate := 90 } }

/-- Re-sweeping an already-swept order changes nothing: once updated its
status is no longer `re-offered-pending`, so the query no longer matches. -/
theorem sweepOrder_self_idem (now : Nat) (o : Order) :
    sweepOrder now (sweepOrder now o) = sweepOrder now o := by
  by_cases h : dueForAutoAccept now o
  · have hu : dueForAutoAccept now (autoAcceptUpdate now o) = false := by
      simp [dueForAutoAccept, autoAcceptUpdate]
    simp [sweepOrder, h, hu]
  · simp [sweepOrder, h]

/-- Claim C6 (confirmed): the sweep transitions exactly the orders whose
status is the re-offer-pending state and whose auto-resolve deadline is at
or before `now` — on each it writes the auto-accepted status and a fresh
`acceptedAt`; every other order is untouched; an order already moved out of
the pending state is never re-resolved; and re-running the whole sweep is a
no-op on the already-swept collection (idempotence of scan+resolve). -/
theorem autoAcceptOffers_spec (now : Nat) (o : Order) (orders : List Order) :
    (dueForAutoAccept now o = true →
      sweepOrder now o
        = { o with status := "re-offered-auto-accepted", acceptedAt := some now })
    ∧ (dueForAutoAccept now o = false → sweepOrder now o = o)
    ∧ (o.status ≠ "re-offered-pending" → sweepOrder now o = o)
    ∧ autoAcceptOffers now (autoAcceptOffers now orders) = autoAcceptOffers now orders := by
  refine ⟨fun h => ?_, fun h => ?_, fun h => ?_, ?_⟩
  · simp [sweepOrder, h, autoAcceptUpdate]
  · simp [sweepOrder, h]
  · have hd : dueForAutoAccept now o = false := by
      simp [dueForAutoAccept, h]
    simp [sweepOrder, hd]
  · unfold autoAcceptOffers
    rw [List.map_map]
    exact List.map_congr_left (fun a _ => sweepOrder_self_idem now a)

/-- Witness for `autoAcceptOffers_spec`: a concrete pending order past its
deadline is resolved, and a concrete resolved order is left untouched. -/
theorem autoAcceptOffers_spec_witness :
    sweepOrder 100 oDue
      = { oDue with status := "re-offered-auto-accepted", acceptedAt := some 100 }
    ∧ sweepOrder 100 oResolved = oResolved :=
  ⟨(autoAcceptOffers_spec 100 oDue []).1 (by decide),
   (autoAcceptOffers_spec 100 oResolved []).2.2.1 (by decide)⟩

/-!  ## C7 — submit re-offer (`POST /orders/:id/re-offer`)

`src/functions/index.js` lines 303-327: reject with 400 when
`!newPrice || !reasons || !Array.isArray(reasons) || reasons.length === 0`,
otherwise write the `reOffer` sub-record with
`autoAcceptDate = Date.now() + 7*24*60*60*1000` and set the status to
`re-offered-pending`.  JS truthiness on a number rejects only 0 (and NaN),
so a negative `newPrice` passes the check.  -/

/-- The fixed seven-day auto-resolve window in milliseconds
(`7 * 24 * 60 * 60 * 1000`). -/
def sevenDaysMs : Nat := 7 * 24 * 60 * 60 * 1000

/-- `POST /orders/:id/re-offer` on an existing order.  `newPrice` is the JS
number of the body (0 models every falsy number); `reasons` must be a
non-empty array.  On success the handler writes the `reOffer` sub-record
and the pending status; the Zendesk ticket call afterwards is caught and
cannot change the result. -/
def submitReoffer (o : Order) (newPrice : Int) (reasons : List String)
    (comments : String) (now : Nat) : Except HttpErr Order :=
  if newPrice = 0 ∨ reasons = [] then
    .error (.badRequest "New price and at least one reason are required")
  else
    .ok { o with
            status := "re-offered-pending",
            reOffer := some { newPrice := newPrice, reasons := reasons,
                              comments := comments, createdAt := now,
                              autoAcceptDate := now + sevenDaysMs } }

/-- Claim C7 (counterexample): a re-offer with the negative price -50 and a
reason passes validation and is stored, so the claim that the operation
requires `newPrice > 0` is false — the JS check `!newPrice` rejects only a
zero (falsy) price. -/
theorem submitReoffer_accepts_negative_price :
    submitReoffer o0 (-50) ["cracked screen"] "" 1000
      = .ok { o0 with
                status := "re-offered-pending",
                reOffer := some { newPrice := -50, reasons := ["cracked screen"],
                                  comments := "", createdAt := 1000,
                                  autoAcceptDate := 1000 + sevenDaysMs } }
    ∧ ¬ ((-50 : Int) > 0) := by
  exact ⟨rfl, by decide⟩

/-- Claim C7 (amended): a submit-re-offer at time `now` succeeds exactly
when `newPrice` is non-zero (truthy) and at least one reason is given —
strict positivity is not enforced — and every successful submission stores
`autoAcceptDate = now + 7*24*60*60*1000` milliseconds, exactly seven days
after `now`. -/
theorem submitReoffer_spec (o : Order) (newPrice : Int) (reasons : List String)
    (comments : String) (now : Nat)
    (h : newPrice ≠ 0 ∧ reasons ≠ []) :
    submitReoffer o newPrice reasons comments now
      = .ok { o with
                status := "re-offered-pending",
                reOffer := some { newPrice := newPrice, reasons := reasons,
                                  comments := comments, createdAt := now,
                                  autoAcceptDate := now + 7 * 24 * 60 * 60 * 1000 } }
    ∧ (∀ o', submitReoffer o newPrice reasons comments now = .ok o' →
        ∃ r, o'.reOffer = some r ∧ r.autoAcceptDate = now + 7 * 24 * 60 * 60 * 1000)
    ∧ submitReoffer o 0 reasons comments now
      = .error (.badRequest "New price and at least one reason are required")
    ∧ submitReoffer o newPrice [] comments now
      = .error (.badRequest "New price and at least one reason are required") := by
  obtain ⟨h1, h2⟩ := h
  refine ⟨?_, ?_, ?_, ?_⟩
  · simp [submitReoffer, h1, h2, sevenDaysMs]
  · intro o' ho'
    have hok : submitReoffer o newPrice reasons comments now
        = .ok { o with
                  status := "re-offered-pending",
                  reOffer := some { newPrice := newPrice, reasons := reasons,
                                    comments := comments, createdAt := now,
                                    autoAcceptDate := now + 7 * 24 * 60 * 60 * 1000 } } := by
      simp [submitReoffer, h1, h2, sevenDaysMs]
    rw [hok] at ho'
    injection ho' with h3
    subst h3
    exact ⟨_, rfl, rfl⟩
  · simp [submitReoffer]
  · simp [submitReoffer]

/-- Witness for `submitReoffer_spec` at a concrete order, price, reason
list and time. -/
theorem submitReoffer_spec_witness :
    submitReoffer o0 350 ["cracked screen"] "" 1000
      = .ok { o0 with
                status := "re-offered-pending",
                reOffer := some { newPrice := 350, reasons := ["cracked screen"],
                                  comments := "", createdAt := 1000,
                                  autoAcceptDate := 1000 + 7 * 24 * 60 * 60 * 1000 } } :=
  (submitReoffer_spec o0 350 ["cracked screen"] "" 1000 (by decide)).1

/-!  ## C8 — generate-label precondition

`POST /api/generate-label/:orderId` (`src/swiftbuyback-backend/index.js`
lines 221-330): after the 404 existence check it filters
`['fullName','streetAddress','city','state','zipCode','email']` for falsy
values and returns 400 when any is missing; a USPS failure is a 502 with no
write; otherwise it writes `status = 'label_generated'` with the label
fields and `labelGeneratedAt`.  Neither this revision nor the one at
`src/functions/index.js` lines 236-251 reads the current status.  -/

/-- The shipping fields the handler requires, in source order. -/
def requiredLabelFields : List String :=
  ["fullName", "streetAddress", "city", "state", "zipCode", "email"]

/-- Dynamic field access `shippingDetails[field]` for the required-field
filter. -/
def shippingFieldValue (si : ShippingInfo) (field : String) : String :=
  if field = "fullName" then si.fullName
  else if field = "streetAddress" then si.streetAddress
  else if field = "city" then si.city
  else if field = "state" then si.state
  else if field = "zipCode" then si.zipCode
  else if field = "email" then si.email
  else ""

/-- `missingFields`: the required fields whose value is falsy (empty). -/
def missingLabelFields (si : ShippingInfo) : List String :=
  requiredLabelFields.filter (fun f => shippingFieldValue si f == "")

/-- One run of `POST /api/generate-label/:orderId` on an existing order.
`uspsOk` is whether the USPS label call returns a valid response (its
failure is a 502 before any store write). -/
def generateLabelUsps (o : Order) (uspsOk : Bool) (now : Nat) : Except HttpErr Order :=
  if missingLabelFields o.shippingInfo ≠ [] then
    .error (.badRequest "Missing required shipping fields")
  else if !uspsOk then
    .error (.badGateway "Failed to get a valid response from USPS API.")
  else
    .ok { o with
            status := "label_generated",
            uspsLabelUrl := some "https://placeholder.com/your-real-pdf-url",
            trackingNumber := some "N/A",
            labelGeneratedAt := some now }

/-- Claim C8 (counterexample): an order that is NOT in `pending_shipment`
(here: already resolved as `offer_accepted`) is neither rejected nor left
unchanged — generate-label succeeds and overwrites its status with
`label_generated`, because no revision of the handler checks the current
status. -/
theorem generateLabelUsps_ignores_status :
    generateLabelUsps oResolved true 50
      = .ok { oResolved with
                status := "label_generated",
                uspsLabelUrl := some "https://placeholder.com/your-real-pdf-url",
                trackingNumber := some "N/A",
                labelGeneratedAt := some 50 }
    ∧ oResolved.status ≠ "pending_shipment" := by
  exact ⟨rfl, by decide⟩

/-- Claim C8 (amended): generate-label checks only that the required
shipping fields (fullName, streetAddress, city, state, zipCode, email) are
non-empty — 400 and no write when one is missing, 502 and no write when the
provider fails — and otherwise succeeds from ANY current status, always
writing `label_generated`; the claimed `pending_shipment` status
precondition is not enforced. -/
theorem generateLabelUsps_spec (o : Order) (uspsOk : Bool) (now : Nat) :
    (missingLabelFields o.shippingInfo ≠ [] →
      generateLabelUsps o uspsOk now
        = .error (.badRequest "Missing required shipping fields"))
    ∧ (missingLabelFields o.shippingInfo = [] → uspsOk = false →
      generateLabelUsps o uspsOk now
        = .error (.badGateway "Failed to get a valid response from USPS API."))
    ∧ (missingLabelFields o.shippingInfo = [] → uspsOk = true →
      generateLabelUsps o uspsOk now
        = .ok { o with
                  status := "label_generated",
                  uspsLabelUrl := some "https://placeholder.com/your-real-pdf-url",
                  trackingNumber := some "N/A",
                  labelGeneratedAt := some now }) := by
  refine ⟨fun h => ?_, fun h1 h2 => ?_, fun h1 h2 => ?_⟩
  · simp [generateLabelUsps, h]
  · subst h2; simp [generateLabelUsps, h1]
  · subst h2; simp [generateLabelUsps, h1]

/-- Witness for `generateLabelUsps_spec`: a concrete order with a missing
email is rejected with 400, and the same order with all fields present
succeeds. -/
theorem generateLabelUsps_spec_witness :
    generateLabelUsps { o0 with shippingInfo := { si0 with email := "" } } true 50
      = .error (.badRequest "Missing required shipping fields")
    ∧ generateLabelUsps o0 true 50
      = .ok { o0 with
                status := "label_generated",
                uspsLabelUrl := some "https://placeholder.com/your-real-pdf-url",
                trackingNumber := some "N/A",
                labelGeneratedAt := some 50 } :=
  ⟨(generateLabelUsps_spec { o0 with shippingInfo := { si0 with email := "" } } true 50).1
      (by decide),
   (generateLabelUsps_spec o0 true 50).2.2 (by decide) rfl⟩

/-!  ## C9 — conversation-thread binding

`src/unnamed/part_004`: `POST /orders/:id/send-custom-email`
(lines 517-551) reuses `orderData.zendeskTicketId` when present (adding a
comment to the existing ticket) and creates a new ticket only when it is
absent; but `sendBuyerReofferEmailViaZendesk` (lines 92-188, invoked by
`PUT /orders/:id/reoffer`) always creates a new Zendesk ticket and then
overwrites `zendeskTicketId` with the new ticket's id (lines 180-182),
regardless of any existing value.  Fresh upstream ticket ids are modelled as
an explicit `freshId` parameter; the Bool result records whether a new
upstream ticket was created by the call.  -/

/-- The thread-binding behaviour of `POST /orders/:id/send-custom-email`:
comment on the stored ticket when one exists, otherwise create a ticket and
persist its id. -/
def sendCustomEmailFlow (o : Order) (freshId : Nat) : Order × Bool :=
  match o.zendeskTicketId with
  | some _ => (o, false)
  | none => ({ o with zendeskTicketId := some freshId }, true)

/-- The thread-binding behaviour of `sendBuyerReofferEmailViaZendesk`:
unconditionally create a new ticket and overwrite the stored id. -/
def sendReofferEmailFlow (o : Order) (freshId : Nat) : Order × Bool :=
  ({ o with zendeskTicketId := some freshId }, true)

/-- An order already bound to upstream ticket 1. -/
def oWithTicket : Order := { o0 with zendeskTicketId := some 1 }

/-- Claim C9 (counterexample): on an order whose thread id is already bound
(ticket 1), a subsequent re-offer communication creates a second upstream
ticket (the Bool is true) and rebinds the order to the new id 2 — the
thread id is not set at most once and a later communication does not reuse
it. -/
theorem reofferEmail_overwrites_ticketId :
    sendReofferEmailFlow oWithTicket 2
      = ({ oWithTicket with zendeskTicketId := some 2 }, true)
    ∧ oWithTicket.zendeskTicketId = some 1 := ⟨rfl, rfl⟩

/-- Claim C9 (amended): the custom-email path alone is an idempotent thread
binder — the first call on an unbound order creates one upstream ticket and
persists its id, and any second call reuses that id and creates nothing —
but the re-offer email path always creates a fresh upstream ticket and
overwrites the stored id, so across all write paths the thread id is not
set at most once. -/
theorem threadBinding_spec (o : Order) (f1 f2 : Nat) :
    (o.zendeskTicketId = none →
      sendCustomEmailFlow o f1 = ({ o with zendeskTicketId := some f1 }, true)
      ∧ sendCustomEmailFlow (sendCustomEmailFlow o f1).1 f2
          = ((sendCustomEmailFlow o f1).1, false))
    ∧ (∀ t, o.zendeskTicketId = some t →
      sendCustomEmailFlow o f1 = (o, false))
    ∧ (sendReofferEmailFlow o f1).2 = true
    ∧ (sendReofferEmailFlow o f1).1.zendeskTicketId = some f1 := by
  refine ⟨fun h => ?_, fun t h => ?_, rfl, rfl⟩
  · simp [sendCustomEmailFlow, h]
  · simp [sendCustomEmailFlow, h]

/-- Witness for `threadBinding_spec`: binding the concrete unbound order
twice yields the same ticket id both times with exactly one upstream
creation, and a bound order is reused as-is. -/
theorem threadBinding_spec_witness :
    (sendCustomEmailFlow o0 7 = ({ o0 with zendeskTicketId := some 7 }, true)
      ∧ sendCustomEmailFlow (sendCustomEmailFlow o0 7).1 9
          = ((sendCustomEmailFlow o0 7).1, false))
    ∧ sendCustomEmailFlow oWithTicket 7 = (oWithTicket, false) :=
  ⟨(threadBinding_spec o0 7 9).1 rfl,
   (threadBinding_spec oWithTicket 7 9).2.1 1 rfl⟩

/-!  ## C10 — submit-order server-side field override

`POST /submit-order` (`src/functions/index.js` lines 122-144; the
`src/swiftbuyback-backend/index.js` lines 160-187 and `src/unnamed/part_003`
lines 36-53 revisions share the same object-literal shape) stores
`{ ...orderData, customOrderId, createdAt: serverTimestamp(), status:
"pending_shipment" }`.  In a JS object literal, later keys override earlier
ones, so the client's `status`/`createdAt` are always replaced.  The claim
is about raw field overriding, so the document is modelled as an
association list of JSON-ish values rather than an `Order` structure.  -/

/-- A JSON-ish Firestore field value.  `objv` stands for any (truthy)
object value whose inner shape the claim does not inspect; `ts` is a
resolved server timestamp. -/
inductive JVal where
  | str (s : String)
  | num (n : Int)
  | ts (t : Nat)
  | objv
  | nullv
deriving Repr, DecidableEq

/-- A document as an association list of fields. -/
abbrev JDoc := List (String × JVal)

/-- JS truthiness of a field value (`""`, `0` and `null`/absent are
falsy). -/
def jTruthy : JVal → Bool
  | .str s => s != ""
  | .num n => n != 0
  | .ts _ => true
  | .objv => true
  | .nullv => false

/-- Field read (`doc[k]`): the first binding of the key. -/
def getField : JDoc → String → Option JVal
  | [], _ => none
  | p :: tl, k => if p.1 = k then some p.2 else getField tl k

/-- A later object-literal key overriding an earlier/spread one: all prior
bindings of `k` are dropped and the new binding appended. -/
def setField : JDoc → String → JVal → JDoc
  | [], k, v => [(k, v)]
  | p :: tl, k, v => if p.1 = k then setField tl k v else p :: setField tl k v

/-- `POST /submit-order`: 400 when `orderData?.shippingInfo` or
`orderData?.estimatedQuote` is falsy/absent, otherwise store the spread
client data with `customOrderId`, a server `createdAt` and
`status = "pending_shipment"` applied after (hence over) the client
fields. -/
def submitOrder (body : JDoc) (customOrderId : String) (now : Nat) :
    Except HttpErr JDoc :=
  if !(jTruthy ((getField body "shippingInfo").getD .nullv))
      || !(jTruthy ((getField body "estimatedQuote").getD .nullv)) then
    .error (.badRequest "Invalid order data")
  else
    .ok (setField (setField (setField body "customOrderId" (.str customOrderId))
          "createdAt" (.ts now)) "status" (.str "pending_shipment"))

/-- Reading back the key just set yields the new value. -/
theorem getField_setField_self (d : JDoc) (k : String) (v : JVal) :
    getField (setField d k v) k = some v := by
  induction d with
  | nil => simp [getField, setField]
  | cons p tl ih =>
    by_cases h : p.1 = k
    · simpa [getField, setField, h] using ih
    · simpa [getField, setField, h] using ih

/-- Setting one key leaves reads of a different key unchanged. -/
theorem getField_setField_ne (d : JDoc) (k k' : String) (v : JVal)
    (hne : k' ≠ k) :
    getField (setField d k v) k' = getField d k' := by
  have hkk : ¬ k = k' := fun hk => hne hk.symm
  induction d with
  | nil => simp [getField, setField, hkk]
  | cons p tl ih =>
    by_cases h : p.1 = k
    · simpa [getField, setField, h, hkk] using ih
    · by_cases h3 : p.1 = k'
      · simp [getField, setField, h, h3, hne]
      · simpa [getField, setField, h, h3] using ih

/-- Claim C10 (confirmed): every document stored by submit-order carries
`status = "pending_shipment"` and the server-resolved `createdAt`,
regardless of any `status` or `createdAt` the client put in the request
body — the server-set literals are applied after the spread of the client
data, so they always override it. -/
theorem submitOrder_server_fields_win (body : JDoc) (cid : String) (now : Nat)
    (d : JDoc) (h : submitOrder body cid now = .ok d) :
    getField d "status" = some (.str "pending_shipment")
    ∧ getField d "createdAt" = some (.ts now) := by
  unfold submitOrder at h
  split at h
  · exact absurd h (by simp)
  · injection h with h
    subst h
    refine ⟨getField_setField_self _ _ _, ?_⟩
    rw [getField_setField_ne _ _ _ _ (by decide)]
    exact getField_setField_self _ _ _

/-- A client body that tries to smuggle in its own `status` and
`createdAt`. -/
def body0 : JDoc :=
  [ ("shippingInfo", .objv), ("estimatedQuote", .num 420)
  , ("status", .str "hacked"), ("createdAt", .ts 999) ]

/-- The document submit-order actually stores for `body0`. -/
def storedDoc0 : JDoc :=
  [ ("shippingInfo", .objv), ("estimatedQuote", .num 420)
  , ("customOrderId", .str "12-345"), ("createdAt", .ts 1000)
  , ("status", .str "pending_shipment") ]

/-- Witness for `submitOrder_server_fields_win`: the malicious concrete
body is stored with the server's status and timestamp. -/
theorem submitOrder_server_fields_win_witness :
    getField storedDoc0 "status" = some (.str "pending_shipment")
    ∧ getField storedDoc0 "createdAt" = some (.ts 1000) :=
  submitOrder_server_fields_win body0 "12-345" 1000 storedDoc0 rfl
